import Mathlib

/-!
Formal model of the skill validation and packaging pipeline
(scripts/package_skill.py and scripts/init_skill.py), as a shallow
embedding: pure functions over strings, an explicit filesystem record for
the directory-dependent checks, and `Except` for Python exceptions.
-/

set_option maxRecDepth 4000

/-- Severity of a validation finding; the source uses the strings
"error" and "warning". -/
inductive Severity where
  | error
  | warning
deriving DecidableEq, Repr

/-- One validation finding (class ValidationError in the source). -/
structure VE where
  message : String
  severity : Severity
deriving DecidableEq, Repr

/-- Number of occurrences of the finding `x` in a findings list. -/
def countVE (x : VE) (l : List VE) : Nat :=
  (l.filter (fun e => decide (e = x))).length

/-- The character class `[a-z0-9]` of the name grammar. -/
def isLowerAlnum (c : Char) : Bool :=
  ('a' ≤ c && c ≤ 'z') || ('0' ≤ c && c ≤ '9')

/-- Matcher for the regex `[a-z0-9]+(-[a-z0-9]+)*` against a whole string.
The state records whether we are at the start of a segment (`true`,
where at least one alphanumeric character is required) or inside a
segment (`false`). -/
def grammarRun : Bool → List Char → Bool
  | true, [] => false
  | false, [] => true
  | true, c :: t => isLowerAlnum c && grammarRun false t
  | false, c :: t =>
      if isLowerAlnum c then grammarRun false t
      else if c = '-' then grammarRun true t
      else false

/-- Full match of `^[a-z0-9]+(-[a-z0-9]+)*$` against a character list,
without the Python `$` newline allowance. -/
def grammarCore (s : List Char) : Bool := grammarRun true s

/-- Whether a character list ends with a newline character. -/
def endsWithNL (l : List Char) : Bool :=
  match l.getLast? with
  | some c => c = '\n'
  | _ => false

/-- Python semantics of `re.match(r'^[a-z0-9]+(-[a-z0-9]+)*$', name)`:
`$` also matches just before a single trailing newline. -/
def pyNameMatch (s : String) : Bool :=
  grammarCore s.data || (endsWithNL s.data && grammarCore s.data.dropLast)

/-- Finding "name field is required". -/
def requiredNameVE : VE := ⟨"name field is required", Severity.error⟩

/-- Finding for a name longer than 64 characters. -/
def lenNameVE (n : Nat) : VE :=
  ⟨"name must be 64 characters or less (got " ++ toString n ++ ")", Severity.error⟩

/-- Finding for a name violating the identifier grammar. -/
def grammarVE : VE :=
  ⟨"name must be lowercase letters, numbers, and hyphens only. Cannot start/end with hyphen or have consecutive hyphens.", Severity.error⟩

/-- Finding for a name that differs from the directory name. -/
def mismatchVE (name directory_name : String) : VE :=
  ⟨"name \x27" ++ name ++ "\x27 must match directory name \x27" ++ directory_name ++ "\x27", Severity.error⟩

/-- validate_skill_name from package_skill.py, for a string name: the
empty name short-circuits; otherwise the length, grammar and
directory-match checks each append their finding independently. -/
def validate_skill_name (name directory_name : String) : List VE :=
  if name = "" then [requiredNameVE]
  else
    (if name.length > 64 then [lenNameVE name.length] else [])
    ++ (if !(pyNameMatch name) then [grammarVE] else [])
    ++ (if name ≠ directory_name then [mismatchVE name directory_name] else [])

/-- Is `pat` a prefix of `s`? -/
def listHasPref : List Char → List Char → Bool
  | [], _ => true
  | _ :: _, [] => false
  | p :: pt, c :: ct => p = c && listHasPref pt ct

/-- Python substring containment `pat in s` on character lists. -/
def strContainsSub (pat : List Char) : List Char → Bool
  | [] => listHasPref pat []
  | c :: t => listHasPref pat (c :: t) || strContainsSub pat t

/-- Python str.lower, restricted to ASCII case mapping. -/
def lowerStr (s : String) : String := String.mk (s.data.map Char.toLower)

/-- The fixed usage-trigger phrase list of validate_description. -/
def whenIndicators : List String :=
  ["use when", "use for", "when the user", "when you need", "triggers when"]

/-- Whether the lowercased description contains a usage-trigger phrase. -/
def hasWhenIndicator (description : String) : Bool :=
  whenIndicators.any (fun ind => strContainsSub ind.data (lowerStr description).data)

/-- Finding "description field is required". -/
def requiredDescVE : VE := ⟨"description field is required", Severity.error⟩

/-- Finding for a description longer than 1024 characters. -/
def lenDescVE (n : Nat) : VE :=
  ⟨"description must be 1024 characters or less (got " ++ toString n ++ ")", Severity.error⟩

/-- Warning for a description shorter than 50 characters. -/
def shortDescVE : VE :=
  ⟨"description is very short. Include both WHAT the skill does and WHEN to use it.", Severity.warning⟩

/-- Finding for a description containing the placeholder token. -/
def todoDescVE : VE := ⟨"description contains TODO placeholder", Severity.error⟩

/-- Warning for a description with no usage-trigger phrase. -/
def whenDescVE : VE :=
  ⟨"description should explain WHEN to use the skill (e.g., \x27Use when...\x27)", Severity.warning⟩

/-- validate_description from package_skill.py for a string description:
the empty description short-circuits; otherwise the length, shortness,
TODO and usage-trigger checks each append their finding independently. -/
def validate_description (description : String) : List VE :=
  if description = "" then [requiredDescVE]
  else
    (if description.length > 1024 then [lenDescVE description.length] else [])
    ++ (if description.length < 50 then [shortDescVE] else [])
    ++ (if strContainsSub "todo".data (lowerStr description).data then [todoDescVE] else [])
    ++ (if !(hasWhenIndicator description) then [whenDescVE] else [])

/-- A Python value as decoded by yaml.safe_load (the shapes relevant to
the frontmatter mapping). -/
inductive PyVal where
  | str (s : String)
  | int (n : Int)
  | bool (b : Bool)
  | none
  | list (l : List PyVal)
  | dict (l : List (String × PyVal))

/-- A Python exception raised by the validators. -/
inductive PyErr where
  | typeError (msg : String)
  | attributeError (msg : String)
deriving DecidableEq, Repr

/-- Python truthiness of a value (`not x`). -/
def pyTruthy : PyVal → Bool
  | PyVal.str s => !s.isEmpty
  | PyVal.int n => n ≠ 0
  | PyVal.bool b => b
  | PyVal.none => false
  | PyVal.list l => !l.isEmpty
  | PyVal.dict l => !l.isEmpty

/-- The Python type name of a value, used in exception messages. -/
def pyTypeName : PyVal → String
  | PyVal.str _ => "str"
  | PyVal.int _ => "int"
  | PyVal.bool _ => "bool"
  | PyVal.none => "NoneType"
  | PyVal.list _ => "list"
  | PyVal.dict _ => "dict"

/-- Python len(): defined on strings, lists and dicts, a TypeError on
other scalars. -/
def pyLen : PyVal → Except PyErr Nat
  | PyVal.str s => Except.ok s.length
  | PyVal.list l => Except.ok l.length
  | PyVal.dict l => Except.ok l.length
  | v => Except.error (PyErr.typeError ("object of type \x27" ++ pyTypeName v ++ "\x27 has no len()"))

mutual

/-- Python repr() of a value, restricted to the shapes of PyVal. -/
def pyReprOf : PyVal → String
  | PyVal.str s => "\x27" ++ s ++ "\x27"
  | PyVal.int n => toString n
  | PyVal.bool b => cond b "True" "False"
  | PyVal.none => "None"
  | PyVal.list l => "[" ++ String.intercalate ", " (pyReprList l) ++ "]"
  | PyVal.dict l => "\x7b" ++ String.intercalate ", " (pyReprPairs l) ++ "\x7d"

/-- repr of each element of a list of values. -/
def pyReprList : List PyVal → List String
  | [] => []
  | v :: t => pyReprOf v :: pyReprList t

/-- repr of each key/value pair of a dict. -/
def pyReprPairs : List (String × PyVal) → List String
  | [] => []
  | (k, v) :: t => ("\x27" ++ k ++ "\x27: " ++ pyReprOf v) :: pyReprPairs t

end

/-- Python str() of a value: identity on strings, repr otherwise. -/
def pyStr : PyVal → String
  | PyVal.str s => s
  | v => pyReprOf v

/-- Lookup of a key in the decoded frontmatter mapping. -/
def lookupPy (fm : List (String × PyVal)) (k : String) : Option PyVal :=
  (fm.find? (fun kv => kv.1 == k)).map (fun kv => kv.2)

/-- Python dict.get with a default. -/
def lookupPyD (fm : List (String × PyVal)) (k : String) (dflt : PyVal) : PyVal :=
  match lookupPy fm k with
  | some v => v
  | _ => dflt

/-- validate_skill_name as invoked dynamically on a decoded value: a
falsy value yields the required finding; a truthy non-string raises the
same exception Python would (TypeError from len for scalars, TypeError
from re.match for containers). -/
def validate_skill_name_dyn (name : PyVal) (directory_name : String) : Except PyErr (List VE) :=
  match name with
  | PyVal.str s => Except.ok (validate_skill_name s directory_name)
  | v =>
    if !pyTruthy v then Except.ok [requiredNameVE]
    else
      match pyLen v with
      | Except.error e => Except.error e
      | Except.ok _ => Except.error (PyErr.typeError "expected string or bytes-like object")

/-- validate_description as invoked dynamically on a decoded value: a
falsy value yields the required finding; a truthy non-string raises
(TypeError from len for scalars, AttributeError from .lower() for
containers). -/
def validate_description_dyn (description : PyVal) : Except PyErr (List VE) :=
  match description with
  | PyVal.str s => Except.ok (validate_description s)
  | v =>
    if !pyTruthy v then Except.ok [requiredDescVE]
    else
      match pyLen v with
      | Except.error e => Except.error e
      | Except.ok _ =>
          Except.error (PyErr.attributeError
            ("\x27" ++ pyTypeName v ++ "\x27 object has no attribute \x27lower\x27"))

/-- The optional-field check of validate_frontmatter: if compatibility
is present, its str() form must be at most 500 characters. -/
def compatFindings (fm : List (String × PyVal)) : List VE :=
  match lookupPy fm "compatibility" with
  | some v =>
      if (pyStr v).length > 500 then
        [⟨"compatibility must be 500 characters or less (got " ++ toString (pyStr v).length ++ ")", Severity.error⟩]
      else []
  | _ => []

/-- The per-field validation part of validate_frontmatter (lines
117-127): name findings, then description findings, then compatibility
findings; exceptions from the dynamic calls propagate. -/
def frontmatterFieldErrors (fm : List (String × PyVal)) (directory_name : String) :
    Except PyErr (List VE) :=
  match validate_skill_name_dyn (lookupPyD fm "name" (PyVal.str "")) directory_name with
  | Except.error e => Except.error e
  | Except.ok e1 =>
    match validate_description_dyn (lookupPyD fm "description" (PyVal.str "")) with
    | Except.error e => Except.error e
    | Except.ok e2 => Except.ok (e1 ++ e2 ++ compatFindings fm)

/-- Python character class `\s` (ASCII part). -/
def isPySpace (c : Char) : Bool :=
  c = ' ' || c = '\t' || c = '\n' || c = '\r' || c = '\x0b' || c = '\x0c'

/-- Does the regex `\n---\s*\n` match at the head of the list? `\s*\n`
matches the remainder exactly when a newline occurs within its leading
whitespace run. -/
def matchesCloseHere : List Char → Bool
  | '\n' :: '-' :: '-' :: '-' :: rest => (rest.takeWhile isPySpace).contains '\n'
  | _ => false

/-- Index of the leftmost match of `\n---\s*\n` (re.search). -/
def findClose : List Char → Option Nat
  | [] => Option.none
  | c :: t =>
      if matchesCloseHere (c :: t) then some 0
      else (findClose t).map (fun n => n + 1)

/-- Outcome of yaml.safe_load on the frontmatter text: either a YAMLError
or a decoded value. The decoder itself is an external collaborator, so
it is passed in as a function. -/
inductive DecodeResult where
  | yamlError (msg : String)
  | value (v : PyVal)

/-- Finding for a manifest that does not start with the opening sentinel. -/
def needStartVE : VE :=
  ⟨"SKILL.md must start with YAML frontmatter (---)", Severity.error⟩

/-- Finding for a frontmatter block with no closing sentinel. -/
def unclosedVE : VE :=
  ⟨"SKILL.md frontmatter must be closed with ---", Severity.error⟩

/-- Finding for frontmatter that decodes to a non-mapping. -/
def notDictVE : VE :=
  ⟨"Frontmatter must be a YAML dictionary", Severity.error⟩

/-- validate_frontmatter from package_skill.py: sentinel checks, decode,
mapping check, then the per-field checks. Returns the decoded mapping
and the findings, or propagates a raised exception. -/
def validate_frontmatter (content : String) (directory_name : String)
    (decode : String → DecodeResult) :
    Except PyErr (List (String × PyVal) × List VE) :=
  if !(listHasPref "---".data content.data) then Except.ok ([], [needStartVE])
  else
    match findClose (content.data.drop 3) with
    | Option.none => Except.ok ([], [unclosedVE])
    | some idx =>
      let fmText := String.mk ((content.data.drop 3).take idx)
      match decode fmText with
      | DecodeResult.yamlError e =>
          Except.ok ([], [⟨"Invalid YAML in frontmatter: " ++ e, Severity.error⟩])
      | DecodeResult.value (PyVal.dict fm) =>
          match frontmatterFieldErrors fm directory_name with
          | Except.error e => Except.error e
          | Except.ok errs => Except.ok (fm, errs)
      | DecodeResult.value _ => Except.ok ([], [notDictVE])

/-- The filesystem state observed by one validation/packaging run: the
skill path (split as parent parts plus directory name), the existence
and kind of entries at the package root, the manifest text, the *.py
entries of scripts/ with their executable bit, and the relative paths
of all regular files below the package directory (in rglob order). -/
structure SkillFS where
  pathExists : Bool
  pathIsDir : Bool
  parentParts : List String
  dirName : String
  entryExists : String → Bool
  entryIsDir : String → Bool
  skillMdContent : String
  scriptsPy : List (String × Bool)
  allFiles : List (List String)

/-- str() of a pathlib path given its parts. -/
def pathStr (parts : List String) : String :=
  match parts with
  | "/" :: rest => "/" ++ String.intercalate "/" rest
  | ps => String.intercalate "/" ps

/-- The parts of the skill path itself. -/
def skillPathParts (fs : SkillFS) : List String := fs.parentParts ++ [fs.dirName]

/-- Finding for a missing manifest file. -/
def missingManifestVE : VE := ⟨"SKILL.md file is required", Severity.error⟩

/-- The line-count advisory of validate_skill_md. -/
def lineCountVE (n : Nat) : VE :=
  ⟨"SKILL.md should be under 500 lines (got " ++ toString n
    ++ "). Consider moving content to references/", Severity.warning⟩

/-- The body placeholder advisory of validate_skill_md. -/
def bodyTodoVE : VE :=
  ⟨"SKILL.md contains TODO placeholders that should be filled in", Severity.warning⟩

/-- The two whole-file checks of validate_skill_md that run after the
frontmatter checks: the 500-line advisory and the TODO-placeholder
scan. -/
def lineBodyFindings (content : String) : List VE :=
  (if (content.data.splitOn '\n').length > 500 then
      [lineCountVE (content.data.splitOn '\n').length]
    else [])
  ++ (if strContainsSub "<!-- TODO".data content.data || strContainsSub "# TODO".data content.data then
        [bodyTodoVE]
      else [])

/-- validate_skill_md from package_skill.py: the missing manifest is a
single fatal finding that short-circuits the manifest checks; otherwise
frontmatter findings, then the whole-file checks. -/
def validate_skill_md (fs : SkillFS) (decode : String → DecodeResult) :
    Except PyErr (List VE) :=
  if !fs.entryExists "SKILL.md" then Except.ok [missingManifestVE]
  else
    match validate_frontmatter fs.skillMdContent fs.dirName decode with
    | Except.error e => Except.error e
    | Except.ok r => Except.ok (r.2 ++ lineBodyFindings fs.skillMdContent)

/-- The fixed disallowed root filenames. -/
def disallowedFiles : List String :=
  ["README.md", "CHANGELOG.md", "INSTALLATION_GUIDE.md", "QUICK_REFERENCE.md"]

/-- The recognized resource directory names. -/
def resourceDirs : List String := ["scripts", "references", "assets"]

/-- validate_structure from package_skill.py: disallowed filenames,
resource entries that are not directories, and non-executable scripts. -/
def validate_structure (fs : SkillFS) : List VE :=
  (disallowedFiles.filterMap fun filename =>
    if fs.entryExists filename then
      some ⟨"\x27" ++ filename ++ "\x27 should not be included in a skill. All documentation should be in SKILL.md or references/", Severity.error⟩
    else Option.none)
  ++ (resourceDirs.filterMap fun dirname =>
    if fs.entryExists dirname && !fs.entryIsDir dirname then
      some ⟨"\x27" ++ dirname ++ "\x27 must be a directory, not a file", Severity.error⟩
    else Option.none)
  ++ (if fs.entryExists "scripts" then
        fs.scriptsPy.filterMap fun sp =>
          if !sp.2 then
            some ⟨"Script \x27" ++ sp.1 ++ "\x27 is not executable. Run: chmod +x "
              ++ pathStr (skillPathParts fs ++ ["scripts", sp.1]), Severity.warning⟩
          else Option.none
      else [])

/-- validate_skill from package_skill.py: existence and directory
checks, then the manifest checks, then the structure checks. -/
def validate_skill (fs : SkillFS) (decode : String → DecodeResult) :
    Except PyErr (List VE) :=
  if !fs.pathExists then
    Except.ok [⟨"Skill path does not exist: " ++ pathStr (skillPathParts fs), Severity.error⟩]
  else if !fs.pathIsDir then
    Except.ok [⟨"Skill path must be a directory: " ++ pathStr (skillPathParts fs), Severity.error⟩]
  else
    match validate_skill_md fs decode with
    | Except.error e => Except.error e
    | Except.ok e1 => Except.ok (e1 ++ validate_structure fs)

/-- The archiver exclusion predicate applied to one path segment. -/
def hiddenPart (p : String) : Bool :=
  listHasPref ".".data p.data || p == "__pycache__"

/-- package_skill from package_skill.py, abstracted to the archive it
writes: output file path and the list of member paths. A file is
skipped when ANY segment of its full path (file_path.parts, which
includes the segments of the skill path itself and of everything above
it) starts with a dot or equals the cache directory name; member paths
are relative to the skill path parent. -/
def package_skill (fs : SkillFS) (outputDirParts : List String) :
    String × List (List String) :=
  (pathStr (outputDirParts ++ [fs.dirName ++ ".skill"]),
   fs.allFiles.filterMap fun rel =>
     if (fs.parentParts ++ fs.dirName :: rel).any hiddenPart then Option.none
     else some (fs.dirName :: rel))

/-- Modelled from the spec (section 4.5 and claim C1): the member list
the claim describes — exactly the regular files for which no path
segment from the package directory downward is hidden or a cache
directory, stored relative to the package parent. Used only to compare
the code against the claim. -/
def specArchiveMembers (fs : SkillFS) : List (List String) :=
  fs.allFiles.filterMap fun rel =>
    if (fs.dirName :: rel).any hiddenPart then Option.none
    else some (fs.dirName :: rel)

/-- The exit/packaging decision of main(): exit 1 and no archive when a
fatal finding exists; otherwise exit 0, packaging unless validate-only
was requested. Uncaught exceptions propagate. -/
def main_run (fs : SkillFS) (decode : String → DecodeResult)
    (validateOnly : Bool) (outputDirParts : List String) :
    Except PyErr (Nat × Option (String × List (List String))) :=
  match validate_skill fs decode with
  | Except.error e => Except.error e
  | Except.ok errors =>
    if !(errors.filter (fun e => decide (e.severity = Severity.error))).isEmpty then
      Except.ok (1, Option.none)
    else if validateOnly then Except.ok (0, Option.none)
    else Except.ok (0, some (package_skill fs outputDirParts))

/-- validate_skill_name from init_skill.py: boolean acceptance plus an
error message (fail-fast, unlike the collecting validator of
package_skill.py). -/
def init_validate_skill_name (name : String) : Bool × String :=
  if name = "" then (false, "Name cannot be empty")
  else if name.length > 64 then
    (false, "Name must be 64 characters or less (got " ++ toString name.length ++ ")")
  else if !(pyNameMatch name) then
    (false, "Name must be lowercase letters, numbers, and hyphens only. Cannot start/end with hyphen or have consecutive hyphens.")
  else (true, "")

/-- Whether init_skill accepts the name (it exits before generating any
file when this is false). -/
def initNameValid (name : String) : Bool := (init_validate_skill_name name).1

/-- Python str.replace for single-character needle and replacement, the
form used by the template (`skill_name.replace("-", " ")`). -/
def pyReplaceChar (old new : Char) (s : String) : String :=
  String.mk (s.data.map (fun c => if c = old then new else c))

/-- Python str.title (ASCII): a letter is uppercased after a non-letter
and lowercased after a letter. -/
def pyTitleChars : Bool → List Char → List Char
  | _, [] => []
  | prevAlpha, c :: t =>
      (if c.isAlpha then (if prevAlpha then c.toLower else c.toUpper) else c)
        :: pyTitleChars c.isAlpha t

/-- Python str.title on a string. -/
def pyTitle (s : String) : String := String.mk (pyTitleChars false s.data)

/-- The template text before the name interpolation. -/
def skillMdPartA : String := "---\nname: "

/-- The template text between the name and the description value. -/
def skillMdPartB : String := "\ndescription: "

/-- The generated description value. -/
def todoDescText : String :=
  "TODO - Describe what this skill does AND when to use it. Include keywords that help agents identify relevant tasks. (Max 1024 characters)"

/-- The template text between the description and the title interpolation. -/
def skillMdPartC : String :=
  "\nmetadata:\n  author: TODO\n  version: \"1.0\"\n---\n\n# "

/-- The template body between the title and the optional sections. -/
def skillMdPartD : String :=
  "\n\n## Problem Statement\n\n<!-- TODO: What problem does this skill solve? (2-3 sentences) -->\n\n## When to Use\n\n- <!-- TODO: Specific scenario where this skill applies -->\n- <!-- TODO: Another indicator that this skill is relevant -->\n- Keywords: <!-- TODO: terms someone might search for -->\n\n## Core Concept\n\n<!-- TODO: Brief explanation of the skill\x27s essence. Focus on the \"why\" not just the \"what\". (2-3 sentences max) -->\n\n## Implementation Guide\n\n### Key Components\n\n| File/Class | Role |\n|------------|------|\n| <!-- TODO --> | <!-- TODO --> |\n\n### Step-by-Step Implementation\n\n#### Step 1: <!-- TODO -->\n\n```ruby\n# TODO: Add implementation code\n```\n\n### Configuration\n\n```yaml\n# TODO: Add configuration if needed\n```\n"

/-- The optional references section of the template. -/
def referencesSectionText : String :=
  "\n## References\n\nFor detailed information, see:\n- [REFERENCE.md](references/REFERENCE.md) - Detailed technical reference\n\n<!-- TODO: Add references as needed -->\n"

/-- The optional scripts section of the template. -/
def scriptsSectionText : String :=
  "\n## Scripts\n\nAvailable utility scripts:\n- `scripts/example.py` - Example script (TODO: replace or remove)\n\n<!-- TODO: Add script documentation as needed -->\n"

/-- The template tail after the optional sections. -/
def skillMdPartE : String :=
  "\n## Testing Strategy\n\n### Unit Tests\n\n```ruby\n# TODO: Add test examples\n```\n\n### Common Test Pitfalls\n\n- <!-- TODO: What to watch out for -->\n\n## Common Pitfalls\n\n1. **<!-- TODO -->**: Description and how to avoid it\n\n## Debugging Tips\n\n- <!-- TODO: Add debugging tips -->\n\n## Related Patterns\n\n- <!-- TODO: Link to related skills -->\n"

/-- create_skill_md from init_skill.py: the f-string template with the
name, the derived title and the optional resource sections
interpolated. -/
def create_skill_md (skill_name : String) (resources : List String) : String :=
  skillMdPartA ++ skill_name ++ skillMdPartB ++ todoDescText ++ skillMdPartC
    ++ pyTitle (pyReplaceChar '-' ' ' skill_name) ++ skillMdPartD
    ++ (if resources.contains "references" then referencesSectionText else "")
    ++ (if resources.contains "scripts" then scriptsSectionText else "")
    ++ skillMdPartE

/-- The key prefix of the description line. -/
def descMarker : List Char := "description: ".data

/-- Scanner for the value of the first line starting with
"description: ": the flag records whether the scanner is at the start
of a line. -/
def scanDesc : Bool → List Char → Option (List Char)
  | _, [] => Option.none
  | atStart, c :: t =>
      if atStart && listHasPref descMarker (c :: t) then
        some (((c :: t).drop descMarker.length).takeWhile (fun x => !(x = '\n')))
      else scanDesc (c = '\n') t

/-- The description field of a generated manifest: the value of the
first description line. -/
def extractDescription (content : String) : Option String :=
  (scanDesc true content.data).map (fun l => String.mk l)

/-- A decoder standing in for yaml.safe_load where its result is never
reached or never used. -/
def decNull : String → DecodeResult := fun _ => DecodeResult.value PyVal.none

/-- A package directory whose resolved path runs through a dot
directory (the layout of the usage examples in the script docstring),
holding a single regular file SKILL.md. -/
def fsDotParent : SkillFS :=
  { pathExists := true, pathIsDir := true
    parentParts := ["/", "home", "user", ".claude", "skills"]
    dirName := "my-skill"
    entryExists := fun s => s == "SKILL.md"
    entryIsDir := fun _ => false
    skillMdContent := "", scriptsPy := [], allFiles := [["SKILL.md"]] }

/-- A package directory with no SKILL.md but with a README.md. -/
def fsNoManifestReadme : SkillFS :=
  { pathExists := true, pathIsDir := true
    parentParts := ["/", "tmp"], dirName := "my-skill"
    entryExists := fun s => s == "README.md"
    entryIsDir := fun _ => false
    skillMdContent := "", scriptsPy := [], allFiles := [] }

/-- A package directory with no SKILL.md and nothing else. -/
def fsNoManifestBare : SkillFS :=
  { pathExists := true, pathIsDir := true
    parentParts := ["/", "tmp"], dirName := "my-skill"
    entryExists := fun _ => false
    entryIsDir := fun _ => false
    skillMdContent := "", scriptsPy := [], allFiles := [] }

/-- Scenario B: package directory My_Skill whose manifest header holds
name: My_Skill. -/
def fsScenarioB : SkillFS :=
  { pathExists := true, pathIsDir := true
    parentParts := ["/", "tmp"], dirName := "My_Skill"
    entryExists := fun s => s == "SKILL.md"
    entryIsDir := fun _ => false
    skillMdContent := "---\nname: My_Skill\n---\n"
    scriptsPy := [], allFiles := [["SKILL.md"]] }

/-- The decode outcome of the scenario B header. -/
def decScenarioB : String → DecodeResult :=
  fun _ => DecodeResult.value (PyVal.dict [("name", PyVal.str "My_Skill")])

/-- A manifest that opens its frontmatter but never closes it. -/
def fsUnclosed : SkillFS :=
  { pathExists := true, pathIsDir := true
    parentParts := ["/", "tmp"], dirName := "my-skill"
    entryExists := fun s => s == "SKILL.md"
    entryIsDir := fun _ => false
    skillMdContent := "---\nname: my-skill"
    scriptsPy := [], allFiles := [["SKILL.md"]] }

/-- A skill path that does not exist. -/
def fsMissingPath : SkillFS :=
  { pathExists := false, pathIsDir := false
    parentParts := ["/", "tmp"], dirName := "nope"
    entryExists := fun _ => false
    entryIsDir := fun _ => false
    skillMdContent := "", scriptsPy := [], allFiles := [] }

/-- A package directory whose manifest header maps name to the integer
123, on which the validator raises instead of returning findings. -/
def fsNonStringName : SkillFS :=
  { pathExists := true, pathIsDir := true
    parentParts := ["/", "tmp"], dirName := "my-skill"
    entryExists := fun s => s == "SKILL.md"
    entryIsDir := fun _ => false
    skillMdContent := "---\nname: 123\n---\n"
    scriptsPy := [], allFiles := [["SKILL.md"]] }

/-- The decode outcome of the non-string-name header. -/
def decNonStringName : String → DecodeResult :=
  fun _ => DecodeResult.value (PyVal.dict [("name", PyVal.int 123)])
/-- The header of the C3 witness. -/
def fmWitness : List (String × PyVal) :=
  [("name", PyVal.str "my-skill"),
   ("description", PyVal.str "Use when you need to check that the validator model behaves like the script.")]

/-! ### Helper lemmas -/

theorem strData_app (a b : String) : (a ++ b).data = a.data ++ b.data := rfl

theorem countVE_append (x : VE) (a b : List VE) :
    countVE x (a ++ b) = countVE x a + countVE x b := by
  simp [countVE, List.filter_append]

theorem countVE_nil (x : VE) : countVE x [] = 0 := rfl

theorem countVE_singleton_self (x : VE) : countVE x [x] = 1 := by
  simp [countVE]

theorem countVE_singleton_ne {x y : VE} (h : y ≠ x) : countVE x [y] = 0 := by
  simp [countVE, List.filter, h]

theorem countVE_if_ne {x y : VE} (c : Prop) [Decidable c] (h : y ≠ x) :
    countVE x (if c then [y] else []) = 0 := by
  split
  · exact countVE_singleton_ne h
  · rfl

theorem filter_isEmpty_eq_not_any {α : Type} (p : α → Bool) (l : List α) :
    (l.filter p).isEmpty = !(l.any p) := by
  induction l with
  | nil => rfl
  | cons c t ih =>
      by_cases h : p c = true
      · simp [List.filter_cons, List.any_cons, h]
      · simp only [List.filter_cons, h, List.any_cons, Bool.false_or, if_neg, Bool.not_eq_true]
        simpa [h] using ih

theorem lenNameVE_ne_grammarVE (n : Nat) : lenNameVE n ≠ grammarVE := by
  intro h
  have h1 : (lenNameVE n).message.data.take 14 = grammarVE.message.data.take 14 := by rw [h]
  have h2 : (lenNameVE n).message.data.take 14 = "name must be 6".data := rfl
  rw [h2] at h1
  exact absurd h1 (by decide)

theorem mismatchVE_ne_grammarVE (a b : String) : mismatchVE a b ≠ grammarVE := by
  intro h
  have h1 : (mismatchVE a b).message.data.take 6 = grammarVE.message.data.take 6 := by rw [h]
  have h2 : (mismatchVE a b).message.data.take 6 = "name \x27".data := rfl
  rw [h2] at h1
  exact absurd h1 (by decide)

theorem lenDescVE_ne_shortDescVE (n : Nat) : lenDescVE n ≠ shortDescVE := by
  intro h
  have h1 : (lenDescVE n).message.data.take 13 = shortDescVE.message.data.take 13 := by rw [h]
  have h2 : (lenDescVE n).message.data.take 13 = "description m".data := rfl
  rw [h2] at h1
  exact absurd h1 (by decide)

/-! ### Claims -/

/-- C1 (code_bug): the claim says the archive contains exactly the
regular files with no hidden or cache segment from the package
directory downward, and that segments above the package directory do
not affect inclusion. On a package directory reached through a dot
directory (the layout of the script docstring usage examples) the code
produces an empty archive, while the claimed member list contains
my-skill/SKILL.md. -/
theorem claim1_archiver_counts_parent_segments :
    (package_skill fsDotParent ["/", "home", "user", "dist"]).2 = [] ∧
    specArchiveMembers fsDotParent = [["my-skill", "SKILL.md"]] := ⟨rfl, rfl⟩

/-- C2 counterexample: with SKILL.md missing and a README.md present,
validation reports two findings, not exactly one — the Tree Validator
checks are not skipped. -/
theorem claim2_counterexample :
    validate_skill fsNoManifestReadme decNull
      = Except.ok [missingManifestVE,
          ⟨"\x27README.md\x27 should not be included in a skill. All documentation should be in SKILL.md or references/", Severity.error⟩]
    ∧ (2 : Nat) ≠ 1 := ⟨rfl, by decide⟩

/-- C2 (corrected): when SKILL.md does not exist, validate_skill_md
reports exactly the missing-manifest finding and skips the manifest
checks, but the Tree Validator still runs and its findings follow. -/
theorem claim2_amended_thm (fs : SkillFS) (decode : String → DecodeResult)
    (h1 : fs.pathExists = true) (h2 : fs.pathIsDir = true)
    (h3 : fs.entryExists "SKILL.md" = false) :
    validate_skill fs decode = Except.ok (missingManifestVE :: validate_structure fs) := by
  unfold validate_skill validate_skill_md
  rw [h1, h2, h3]
  simp

/-- C2 witness: the amended theorem applied to a bare directory with no
manifest. -/
theorem claim2_witness :
    fsNoManifestBare.pathExists = true ∧ fsNoManifestBare.pathIsDir = true ∧
    fsNoManifestBare.entryExists "SKILL.md" = false ∧
    validate_skill fsNoManifestBare decNull
      = Except.ok (missingManifestVE :: validate_structure fsNoManifestBare) :=
  ⟨rfl, rfl, rfl, claim2_amended_thm fsNoManifestBare decNull rfl rfl rfl⟩

/-- C4 counterexample: for directory My_Skill with header name
My_Skill, validate_skill_name yields one finding (the grammar
violation), not the claimed two — the name equals the directory name,
so no mismatch finding is produced. -/
theorem claim4_counterexample :
    validate_skill_name "My_Skill" "My_Skill" = [grammarVE] ∧ [grammarVE].length ≠ 2 :=
  ⟨by decide, by decide⟩

/-- C4 (corrected): scenario B produces exactly one fatal name finding
(the grammar violation, no mismatch finding), the run exits with status
1 and produces no archive. -/
theorem claim4_amended_thm :
    countVE grammarVE (validate_skill_name "My_Skill" "My_Skill") = 1 ∧
    countVE (mismatchVE "My_Skill" "My_Skill") (validate_skill_name "My_Skill" "My_Skill") = 0 ∧
    main_run fsScenarioB decScenarioB false ["/", "tmp", "dist"] = Except.ok (1, Option.none) :=
  ⟨by decide, by decide, rfl⟩

/-- C9 (confirmed): a decodable header mapping name to the non-empty
non-string scalar 123 makes validate_frontmatter raise a TypeError
(from len) instead of returning findings. -/
theorem claim9_field_validator_not_total :
    validate_frontmatter "---\nname: 123\n---\n" "my-skill"
        (fun _ => DecodeResult.value (PyVal.dict [("name", PyVal.int 123)]))
      = Except.error (PyErr.typeError "object of type \x27int\x27 has no len()")
    ∧ pyTruthy (PyVal.int 123) = true := ⟨rfl, rfl⟩

/-- C3 counterexample: with an empty name and empty description the
Field Validator stops after the two required-field findings — the
directory-match check is not applied even though the empty name differs
from the directory name. -/
theorem claim3_counterexample :
    frontmatterFieldErrors [] "some-dir" = Except.ok [requiredNameVE, requiredDescVE]
    ∧ countVE (mismatchVE "" "some-dir") [requiredNameVE, requiredDescVE] = 0
    ∧ ("" : String) ≠ "some-dir" := ⟨rfl, by decide, by decide⟩

/-- C3 (corrected): for a decoded header with non-empty string name and
description, every per-field check runs unconditionally, in the order
name checks, description checks, compatibility checks, with no check
gated on an earlier finding; an absent or empty name or description
instead short-circuits the remaining checks of that field only. -/
theorem claim3_amended_thm (fm : List (String × PyVal)) (dir n dsc : String)
    (hn : lookupPyD fm "name" (PyVal.str "") = PyVal.str n) (hn0 : n ≠ "")
    (hd : lookupPyD fm "description" (PyVal.str "") = PyVal.str dsc) (hd0 : dsc ≠ "") :
    frontmatterFieldErrors fm dir = Except.ok (
      ((if n.length > 64 then [lenNameVE n.length] else [])
        ++ (if !(pyNameMatch n) then [grammarVE] else [])
        ++ (if n ≠ dir then [mismatchVE n dir] else []))
      ++ ((if dsc.length > 1024 then [lenDescVE dsc.length] else [])
        ++ (if dsc.length < 50 then [shortDescVE] else [])
        ++ (if strContainsSub "todo".data (lowerStr dsc).data then [todoDescVE] else [])
        ++ (if !(hasWhenIndicator dsc) then [whenDescVE] else []))
      ++ compatFindings fm) := by
  unfold frontmatterFieldErrors
  rw [hn, hd]
  rw [show validate_skill_name_dyn (PyVal.str n) dir = Except.ok (validate_skill_name n dir) from rfl]
  rw [show validate_description_dyn (PyVal.str dsc) = Except.ok (validate_description dsc) from rfl]
  show Except.ok (validate_skill_name n dir ++ validate_description dsc ++ compatFindings fm) = _
  unfold validate_skill_name validate_description
  rw [if_neg hn0, if_neg hd0]

/-- C3 witness: the amended theorem applied to a clean concrete header,
where every check passes and the findings list is empty. -/
theorem claim3_witness :
    ("my-skill" : String) ≠ "" ∧
    ("Use when you need to check that the validator model behaves like the script." : String) ≠ "" ∧
    frontmatterFieldErrors fmWitness "my-skill" = Except.ok [] := by
  refine ⟨by decide, by decide, ?_⟩
  rw [claim3_amended_thm fmWitness "my-skill" "my-skill"
        "Use when you need to check that the validator model behaves like the script."
        rfl (by decide) rfl (by decide)]
  rfl

/-- C5 counterexample: the empty name violates the grammar but receives
no grammar finding — only the required-field finding. -/
theorem claim5_counterexample :
    countVE grammarVE (validate_skill_name "" "demo-dir") = 0 ∧ pyNameMatch "" = false :=
  ⟨by decide, by decide⟩

/-- C5 (corrected): every non-empty name rejected by the grammar
matcher receives exactly one grammar-fatal finding; the empty name
instead receives only the required-field finding. -/
theorem claim5_amended_thm (n d : String) (h0 : n ≠ "") (h1 : pyNameMatch n = false) :
    countVE grammarVE (validate_skill_name n d) = 1 := by
  unfold validate_skill_name
  rw [if_neg h0, h1]
  rw [countVE_append, countVE_append]
  rw [countVE_if_ne _ (lenNameVE_ne_grammarVE n.length)]
  rw [countVE_if_ne _ (mismatchVE_ne_grammarVE n d)]
  simp [countVE_singleton_self]

/-- C5 witness: a name with a leading hyphen gets exactly one grammar
finding. -/
theorem claim5_witness :
    ("-bad" : String) ≠ "" ∧ pyNameMatch "-bad" = false ∧
    countVE grammarVE (validate_skill_name "-bad" "x") = 1 :=
  ⟨by decide, by decide, claim5_amended_thm "-bad" "x" (by decide) (by decide)⟩

/-- C7 counterexample: the empty description is under 50 characters but
does not receive the short-description warning — only the
required-field finding. -/
theorem claim7_counterexample :
    countVE shortDescVE (validate_description "") = 0 ∧ ("" : String).length < 50 :=
  ⟨by decide, by decide⟩

/-- C7 (corrected): for every non-empty description the
short-description warning appears exactly when the length is under 50
(in particular at 49 and not at 50 or 51); the empty description
instead receives only the required-field finding. -/
theorem claim7_amended_thm (d : String) (h : d ≠ "") :
    countVE shortDescVE (validate_description d) = if d.length < 50 then 1 else 0 := by
  unfold validate_description
  rw [if_neg h]
  rw [countVE_append, countVE_append, countVE_append]
  rw [countVE_if_ne _ (lenDescVE_ne_shortDescVE d.length)]
  rw [countVE_if_ne _ (show todoDescVE ≠ shortDescVE by decide)]
  rw [countVE_if_ne _ (show whenDescVE ≠ shortDescVE by decide)]
  by_cases hlen : d.length < 50
  · simp [hlen, countVE_singleton_self]
  · simp [hlen, countVE_nil]

/-- C7 witness: at length 49 the warning is emitted once. -/
theorem claim7_witness :
    ("aaaaaaaaaaaaaaaaaaaaaaaaaaaaaaaaaaaaaaaaaaaaaaaaa" : String) ≠ "" ∧
    ("aaaaaaaaaaaaaaaaaaaaaaaaaaaaaaaaaaaaaaaaaaaaaaaaa" : String).length = 49 ∧
    countVE shortDescVE
      (validate_description "aaaaaaaaaaaaaaaaaaaaaaaaaaaaaaaaaaaaaaaaaaaaaaaaa") = 1 := by
  refine ⟨by decide, by decide, ?_⟩
  rw [claim7_amended_thm "aaaaaaaaaaaaaaaaaaaaaaaaaaaaaaaaaaaaaaaaaaaaaaaaa" (by decide)]
  decide

/-- C6 (confirmed): a manifest that begins with the opening sentinel
but has no closing sentinel yields exactly one malformed-header finding
and zero Field Validator findings, and the Tree Validator findings are
still produced and appended. -/
theorem claim6_thm (fs : SkillFS) (decode : String → DecodeResult)
    (h1 : fs.pathExists = true) (h2 : fs.pathIsDir = true)
    (h3 : fs.entryExists "SKILL.md" = true)
    (h4 : listHasPref "---".data fs.skillMdContent.data = true)
    (h5 : findClose (fs.skillMdContent.data.drop 3) = Option.none) :
    validate_frontmatter fs.skillMdContent fs.dirName decode = Except.ok ([], [unclosedVE]) ∧
    validate_skill fs decode
      = Except.ok (unclosedVE :: (lineBodyFindings fs.skillMdContent ++ validate_structure fs)) := by
  have hf : validate_frontmatter fs.skillMdContent fs.dirName decode = Except.ok ([], [unclosedVE]) := by
    unfold validate_frontmatter
    rw [h4, h5]
    rfl
  refine ⟨hf, ?_⟩
  unfold validate_skill validate_skill_md
  rw [h1, h2, h3, hf]
  simp

/-- C6 witness: the theorem applied to a concrete unterminated manifest. -/
theorem claim6_witness :
    fsUnclosed.entryExists "SKILL.md" = true ∧
    listHasPref "---".data fsUnclosed.skillMdContent.data = true ∧
    findClose (fsUnclosed.skillMdContent.data.drop 3) = Option.none ∧
    validate_skill fsUnclosed decNull
      = Except.ok (unclosedVE ::
          (lineBodyFindings fsUnclosed.skillMdContent ++ validate_structure fsUnclosed)) :=
  ⟨rfl, by decide, rfl,
   (claim6_thm fsUnclosed decNull rfl rfl rfl (by decide) rfl).2⟩

/-- C8 counterexample: not every invocation satisfies the claimed
biconditional. On a package whose header maps name to the integer 123
the validator raises an uncaught TypeError, so the run produces no
findings list at all — the real process terminates with a non-zero
status (CPython exits 1 on an uncaught exception) while zero fatal
findings exist. -/
theorem claim8_counterexample :
    main_run fsNonStringName decNonStringName false ["/", "tmp", "dist"]
      = Except.error (PyErr.typeError "object of type \x27int\x27 has no len()") ∧
    validate_skill fsNonStringName decNonStringName
      = Except.error (PyErr.typeError "object of type \x27int\x27 has no len()") := ⟨rfl, rfl⟩

/-- C8 (corrected): for every invocation on which validation completes
without raising, the exit status is non-zero exactly when a fatal
(error-severity) finding exists; warning-only lists exit with zero. -/
theorem claim8_thm (fs : SkillFS) (decode : String → DecodeResult) (vOnly : Bool)
    (outParts : List String) (errs : List VE)
    (res : Nat × Option (String × List (List String)))
    (h1 : validate_skill fs decode = Except.ok errs)
    (h2 : main_run fs decode vOnly outParts = Except.ok res) :
    res.1 ≠ 0 ↔ errs.any (fun e => decide (e.severity = Severity.error)) = true := by
  have hm : main_run fs decode vOnly outParts
      = (if !(errs.filter (fun e => decide (e.severity = Severity.error))).isEmpty then
          Except.ok (1, Option.none)
        else if vOnly then Except.ok (0, Option.none)
        else Except.ok (0, some (package_skill fs outParts))) := by
    unfold main_run
    rw [h1]
  rw [hm] at h2
  by_cases hc : errs.any (fun e => decide (e.severity = Severity.error)) = true
  · have he : (errs.filter (fun e => decide (e.severity = Severity.error))).isEmpty = false := by
      rw [filter_isEmpty_eq_not_any, hc]
      rfl
    rw [he] at h2
    have hres : res = (1, Option.none) := by simpa using h2.symm
    rw [hres]
    simp [hc]
  · have hc' : errs.any (fun e => decide (e.severity = Severity.error)) = false :=
      Bool.eq_false_iff.mpr hc
    have he : (errs.filter (fun e => decide (e.severity = Severity.error))).isEmpty = true := by
      rw [filter_isEmpty_eq_not_any, hc']
      rfl
    rw [he] at h2
    simp only [Bool.not_true] at h2
    by_cases hv : vOnly = true
    · rw [if_neg (by simp), hv, if_pos rfl] at h2
      have hres : res = (0, Option.none) := by simpa using h2.symm
      rw [hres]
      simp [hc']
    · rw [if_neg (by simp), if_neg hv] at h2
      have hres : res = (0, some (package_skill fs outParts)) := by simpa using h2.symm
      rw [hres]
      simp [hc']

/-- C8 witness: a missing skill path yields one fatal finding, and the
run exits 1 without packaging. -/
theorem claim8_witness :
    validate_skill fsMissingPath decNull
      = Except.ok [⟨"Skill path does not exist: /tmp/nope", Severity.error⟩] ∧
    main_run fsMissingPath decNull false [] = Except.ok (1, Option.none) ∧
    ((1 : Nat) ≠ 0 ↔
      ([(⟨"Skill path does not exist: /tmp/nope", Severity.error⟩ : VE)].any
        (fun e => decide (e.severity = Severity.error))) = true) :=
  ⟨rfl, rfl,
   claim8_thm fsMissingPath decNull false []
     [⟨"Skill path does not exist: /tmp/nope", Severity.error⟩] (1, Option.none) rfl rfl⟩

theorem scanDesc_skip (s : List Char) (hs : ∀ c ∈ s, c ≠ '\n') (r : List Char) :
    scanDesc false (s ++ r) = scanDesc false r := by
  induction s with
  | nil => rfl
  | cons c t ih =>
      have hc : ¬(c = '\n') := hs c (List.mem_cons_self c t)
      show scanDesc false (c :: (t ++ r)) = scanDesc false r
      rw [show scanDesc false (c :: (t ++ r)) = scanDesc (decide (c = '\n')) (t ++ r) from rfl]
      rw [decide_eq_false hc]
      exact ih (fun x hx => hs x (List.mem_cons_of_mem c hx))

theorem scanDesc_desc_line (w : List Char) :
    scanDesc false ("\ndescription: ".data ++ (todoDescText.data ++ ('\n' :: w)))
      = some todoDescText.data := rfl

theorem scanDesc_nl_desc (w : List Char) :
    scanDesc false ('\n' :: ("\ndescription: ".data ++ (todoDescText.data ++ ('\n' :: w))))
      = some todoDescText.data := rfl

theorem grammarRun_chars (s : List Char) : ∀ b, grammarRun b s = true →
    ∀ c ∈ s, isLowerAlnum c = true ∨ c = '-' := by
  induction s with
  | nil =>
      intro b _ c hc
      simp at hc
  | cons x t ih =>
      intro b h c hc
      cases b with
      | true =>
          simp only [grammarRun] at h
          rw [Bool.and_eq_true] at h
          obtain ⟨ha, hrest⟩ := h
          rcases List.mem_cons.mp hc with rfl | hmem
          · exact Or.inl ha
          · exact ih false hrest c hmem
      | false =>
          simp only [grammarRun] at h
          by_cases ha : isLowerAlnum x = true
          · rw [if_pos ha] at h
            rcases List.mem_cons.mp hc with rfl | hmem
            · exact Or.inl ha
            · exact ih false h c hmem
          · rw [if_neg ha] at h
            by_cases hd : x = '-'
            · rw [if_pos hd] at h
              rcases List.mem_cons.mp hc with rfl | hmem
              · exact Or.inr hd
              · exact ih true h c hmem
            · rw [if_neg hd] at h
              exact absurd h (by decide)

theorem isLowerAlnum_ne_nl (c : Char) (h : isLowerAlnum c = true) : c ≠ '\n' := by
  intro hc
  rw [hc] at h
  exact absurd h (by decide)

theorem grammarCore_no_nl (s : List Char) (h : grammarCore s = true) :
    ∀ c ∈ s, c ≠ '\n' := by
  intro c hc
  rcases grammarRun_chars s true h c hc with h1 | h1
  · exact isLowerAlnum_ne_nl c h1
  · rw [h1]
    decide

theorem endsWithNL_eq_concat (l : List Char) (h : endsWithNL l = true) :
    l = l.dropLast ++ ['\n'] := by
  induction l with
  | nil => exact absurd h (by decide)
  | cons c t ih =>
      cases t with
      | nil =>
          have hc : c = '\n' := by
            simpa [endsWithNL, List.getLast?] using h
          rw [hc]
          rfl
      | cons d u =>
          have h' : endsWithNL (d :: u) = true := by
            simpa [endsWithNL, List.getLast?_cons_cons] using h
          exact congrArg (List.cons c) (ih h')

theorem initNameValid_pyMatch (name : String) (h : initNameValid name = true) :
    pyNameMatch name = true := by
  unfold initNameValid init_validate_skill_name at h
  by_cases h1 : name = ""
  · rw [if_pos h1] at h
    exact absurd h (by decide)
  · rw [if_neg h1] at h
    by_cases h2 : name.length > 64
    · rw [if_pos h2] at h
      simp at h
    · rw [if_neg h2] at h
      cases hb : pyNameMatch name with
      | true => rfl
      | false =>
          rw [hb] at h
          exact absurd h (by decide)

theorem scanDesc_through (name : String) (hm : pyNameMatch name = true) (w : List Char) :
    scanDesc true ("---\nname: ".data ++ (name.data ++ ("\ndescription: ".data
        ++ (todoDescText.data ++ ('\n' :: w)))))
      = some todoDescText.data := by
  rw [show scanDesc true ("---\nname: ".data ++ (name.data ++ ("\ndescription: ".data
        ++ (todoDescText.data ++ ('\n' :: w)))))
      = scanDesc false (name.data ++ ("\ndescription: ".data
        ++ (todoDescText.data ++ ('\n' :: w)))) from rfl]
  unfold pyNameMatch at hm
  rw [Bool.or_eq_true] at hm
  rcases hm with hA | hB
  · have hno : ∀ c ∈ name.data, c ≠ '\n' := grammarCore_no_nl name.data hA
    rw [scanDesc_skip name.data hno]
    exact scanDesc_desc_line w
  · rw [Bool.and_eq_true] at hB
    obtain ⟨hb1, hb2⟩ := hB
    have hno : ∀ c ∈ name.data.dropLast, c ≠ '\n' := grammarCore_no_nl _ hb2
    have hdl := endsWithNL_eq_concat name.data hb1
    rw [hdl, List.append_assoc, List.singleton_append]
    rw [scanDesc_skip _ hno]
    exact scanDesc_nl_desc w

/-- C10 (confirmed): for every name the generator accepts and every
resource list, the generated SKILL.md has the fixed TODO description,
whose lowercase form contains the token todo, so validating it always
produces the description-contains-TODO fatal finding. -/
theorem claim10_thm (name : String) (resources : List String)
    (h : initNameValid name = true) :
    extractDescription (create_skill_md name resources) = some todoDescText ∧
    strContainsSub "todo".data (lowerStr todoDescText).data = true ∧
    countVE todoDescVE (validate_description todoDescText) = 1 := by
  refine ⟨?_, by decide, by decide⟩
  have hm := initNameValid_pyMatch name h
  have hdata : (create_skill_md name resources).data
      = "---\nname: ".data ++ (name.data ++ ("\ndescription: ".data ++ (todoDescText.data
          ++ ('\n' :: ("metadata:\n  author: TODO\n  version: \"1.0\"\n---\n\n# ".data
            ++ ((pyTitle (pyReplaceChar '-' ' ' name)).data
              ++ (skillMdPartD.data
                ++ ((if resources.contains "references" then referencesSectionText else "").data
                  ++ ((if resources.contains "scripts" then scriptsSectionText else "").data
                    ++ skillMdPartE.data))))))))) := by
    simp only [create_skill_md, strData_app, List.append_assoc]
    rfl
  unfold extractDescription
  rw [hdata, scanDesc_through name hm _]
  rfl

/-- C10 witness: the theorem applied to the name my-skill with all
three resource sections. -/
theorem claim10_witness :
    initNameValid "my-skill" = true ∧
    extractDescription (create_skill_md "my-skill" ["scripts", "references", "assets"])
      = some todoDescText ∧
    countVE todoDescVE (validate_description todoDescText) = 1 := by
  refine ⟨by decide, ?_, ?_⟩
  · exact (claim10_thm "my-skill" ["scripts", "references", "assets"] (by decide)).1
  · exact (claim10_thm "my-skill" ["scripts", "references", "assets"] (by decide)).2.2
